import Mathlib

/-!
Verification development for the `av` scraper/merge engine.

The repository resolves a content identifier (or free-text query) into a
structured record by querying several external providers (JavDB as primary
metadata source, JavLibrary as secondary, DMM as optional commercial catalog,
Sukebei as torrent index), extracting fields, and reconciling partial results.

This file gives a shallow embedding of the reconciliation core
(`src/scraper.rs`, `src/sources/dmm.rs`) in Lean.  Network transport and
markup parsing are external collaborators in the source; they are modelled by
environment structures carrying each provider's already-fetched response
(`Except` for transport outcomes, structures for markup-extracted page data).
All pure logic — identifier extraction, fallback orchestration, field merge,
magnet aggregation, listing truncation — is translated directly from the Rust
source, function by function.
-/

/-! ### Character classes and ASCII string operations

The Rust code uses `regex` character classes `[a-z]` (with `(?i)`), `\d`,
`[-_ ]` and `str::to_uppercase`.  They are modelled on ASCII, matching the
behaviour of the source on all inputs appearing in this development.
-/

/-- ASCII letter, upper or lower case (`(?i)[a-z]` in the source regexes). -/
def isAsciiAlphaChar (c : Char) : Bool :=
  (65 ≤ c.toNat && c.toNat ≤ 90) || (97 ≤ c.toNat && c.toNat ≤ 122)

/-- ASCII upper-case letter `[A-Z]`. -/
def isUpperAlphaChar (c : Char) : Bool :=
  65 ≤ c.toNat && c.toNat ≤ 90

/-- ASCII digit `\d`. -/
def isDigitChar (c : Char) : Bool :=
  48 ≤ c.toNat && c.toNat ≤ 57

/-- Separator class `[-_ ]` of `extract_code_from_title`'s regex. -/
def isSepChar (c : Char) : Bool :=
  c == '-' || c == '_' || c == ' '

/-- `char::to_uppercase` restricted to its ASCII behaviour, as used by
`str::to_uppercase` in the source. -/
def rust_char_to_upper (c : Char) : Char :=
  if 97 ≤ c.toNat && c.toNat ≤ 122 then Char.ofNat (c.toNat - 32) else c

/-- Rust `str::to_uppercase` (ASCII fragment). -/
def str_to_uppercase (s : String) : String :=
  ⟨s.data.map rust_char_to_upper⟩

/-- Whether `needle` occurs at the start of `hay` (character-wise). -/
def starts_with_chars : List Char → List Char → Bool
  | [], _ => true
  | _ :: _, [] => false
  | n :: ns, h :: hs => n == h && starts_with_chars ns hs

/-- Whether `needle` occurs contiguously anywhere in `hay`. -/
def contains_chars (needle : List Char) : List Char → Bool
  | [] => needle.isEmpty
  | h :: hs => starts_with_chars needle (h :: hs) || contains_chars needle hs

/-- Rust `str::contains(&str)`: substring containment. -/
def str_contains_sub (hay needle : String) : Bool :=
  contains_chars needle.data hay.data

/-- Whitespace for Rust `str::trim` (ASCII fragment). -/
def is_ws_char (c : Char) : Bool :=
  c == ' ' || c == '\t' || c == '\n' || c == '\r'

/-- Rust `str::trim`: strip leading and trailing whitespace. -/
def rust_str_trim (s : String) : String :=
  ⟨((s.data.dropWhile is_ws_char).reverse.dropWhile is_ws_char).reverse⟩

/-! ### Data model (`src/types.rs`) -/

/-- `MagnetInfo` from `src/types.rs`.  The `f32` field `avg_bitrate_mbps` is
modelled as a rational: no claim computes with it, it is only carried. -/
structure MagnetInfo where
  url : String
  name : Option String
  size : Option String
  date : Option String
  seeders : Option Nat
  leechers : Option Nat
  downloads : Option Nat
  resolution : Option String
  codec : Option String
  avg_bitrate_mbps : Option Rat
deriving DecidableEq, Repr

/-- `AvDetail` from `src/types.rs` (the Partial Record).  `rating : f32` is
modelled as a rational for the same reason as in `MagnetInfo`. -/
structure AvDetail where
  code : String
  title : String
  actor_names : List String
  release_date : Option String
  cover_url : Option String
  plot : Option String
  duration_minutes : Option Nat
  director : Option String
  studio : Option String
  label : Option String
  series : Option String
  genres : List String
  rating : Option Rat
  preview_images : List String
  magnet_infos : List MagnetInfo
  magnets : List String
deriving DecidableEq, Repr

/-- `AvItem` from `src/types.rs` (the Listing Item). -/
structure AvItem where
  code : String
  title : String
deriving DecidableEq, Repr

/-- Error kinds of the `anyhow`-based error values in the source, classified
as in spec §7: a "no matching item" outcome versus transport/parse failures. -/
inductive AvError where
  | notFound
  | transport
  | parse
deriving DecidableEq, Repr

instance {ε α : Type} [DecidableEq ε] [DecidableEq α] : DecidableEq (Except ε α) := fun a b =>
  match a, b with
  | .ok x, .ok y =>
      if h : x = y then .isTrue (by rw [h]) else .isFalse (fun hc => h (Except.ok.inj hc))
  | .error x, .error y =>
      if h : x = y then .isTrue (by rw [h]) else .isFalse (fun hc => h (Except.error.inj hc))
  | .ok _, .error _ => .isFalse (fun hc => Except.noConfusion hc)
  | .error _, .ok _ => .isFalse (fun hc => Except.noConfusion hc)

/-! ### Identifier extraction (`extract_code_from_title`, `looks_like_code`)

`extract_code_from_title` (scraper.rs:786) applies the regex
`(?i)([a-z]{2,5})[-_ ]?(\d{2,5})` (leftmost match, greedy with backtracking)
and reassembles `caps[1].to_uppercase() ++ "-" ++ caps[2]`.

The greedy/backtracking behaviour collapses to: at a given start position the
letter group must be exactly the maximal ASCII-letter run there (any shorter
choice leaves a letter where a separator or digit is required), a separator
character is consumed exactly when present, and the digit group is the maximal
digit run capped at 5, which must have length at least 2.
-/

/-- One attempt of the `extract_code_from_title` regex at a fixed position:
returns the captured letter and digit groups on success. -/
def match_code_at (cs : List Char) : Option (List Char × List Char) :=
  let L := cs.takeWhile isAsciiAlphaChar
  if 2 ≤ L.length ∧ L.length ≤ 5 then
    let rest := cs.drop L.length
    let rest2 := if rest.head?.any isSepChar then rest.tail else rest
    let D := rest2.takeWhile isDigitChar
    if 2 ≤ D.length then some (L, D.take 5) else none
  else none

/-- Leftmost-match scan of `extract_code_from_title`'s regex. -/
def find_code : List Char → Option (List Char × List Char)
  | [] => none
  | c :: cs =>
    match match_code_at (c :: cs) with
    | some r => some r
    | none => find_code cs

/-- `extract_code_from_title` (scraper.rs:786-793). -/
def extract_code_from_title (title : String) : Option String :=
  (find_code title.data).map (fun p => ⟨p.1.map rust_char_to_upper ++ '-' :: p.2⟩)

/-- `looks_like_code` (scraper.rs:133-136): the anchored regex
`(?i)^[a-z]{2,5}-?\d{2,5}` — note the separator is an optional hyphen only. -/
def looks_like_code (s : String) : Bool :=
  let L := s.data.takeWhile isAsciiAlphaChar
  let rest := s.data.drop L.length
  let rest2 := if rest.head?.any (fun c => c == '-') then rest.tail else rest
  decide (2 ≤ L.length) && decide (L.length ≤ 5) &&
    decide (2 ≤ (rest2.takeWhile isDigitChar).length)

/-! ### Spec-side predicates

These two definitions follow the SPEC's words (not the source); they state the
properties the claims assert, to be compared against the source functions. -/

/-- Canonical identifier form per spec §3: `LETTERS-DIGITS`, 2–5 upper-case
ASCII letters, one hyphen, 2–5 digits, nothing else. -/
def isCanonicalCode (s : String) : Bool :=
  let L := s.data.takeWhile isUpperAlphaChar
  let rest := s.data.drop L.length
  decide (2 ≤ L.length) && decide (L.length ≤ 5) &&
    (match rest.head? with
     | some c => c == '-'
     | none => false) &&
    rest.tail.all isDigitChar && decide (2 ≤ rest.tail.length) && decide (rest.tail.length ≤ 5)

/-- The claim's query-shape predicate: `[A-Za-z]{2,5}[-_ ]?\d{2,5}` anchored at
the start of the string (separator class `[-_ ]`, unlike `looks_like_code`). -/
def claim_query_pattern (s : String) : Bool :=
  let L := s.data.takeWhile isAsciiAlphaChar
  let rest := s.data.drop L.length
  let rest2 := if rest.head?.any isSepChar then rest.tail else rest
  decide (2 ≤ L.length) && decide (L.length ≤ 5) &&
    decide (2 ≤ (rest2.takeWhile isDigitChar).length)

/-! ### Torrent index source (Sukebei, scraper.rs:530-642)

The HTTP transport and HTML parsing are external collaborators; the model
carries the markup-extracted data of the search-result rows and of the detail
page in environment structures.  Fields read from table cells or inferred by
the best-effort regexes over the detail-page title/body (size, swarm counts,
resolution, codec, estimated bitrate) are carried pre-extracted, since no
claim depends on how they are parsed out of the markup.
-/

/-- One row of the Sukebei search-result table.  `title` is the text of the
row's title anchor (`none` when the row has no title anchor, in which case the
source skips the row), `href` the anchor's link, `magnet` the row's magnet
link, and the remaining fields the row's table cells. -/
structure SukRow where
  title : Option String
  href : Option String
  magnet : Option String
  size : Option String
  date : Option String
  seeders : Option Nat
  leechers : Option Nat
  downloads : Option Nat
deriving DecidableEq, Repr

/-- Markup-extracted data of a Sukebei detail page: the `.torrent-name` text
(if the element exists), the page's magnet links in document order, and the
best-effort metadata hints `extract_magnet_infos_from_sukebei` reads from the
first table row / the title regexes / the size-and-duration bitrate estimate
(the floating-point estimate is carried as a rational). -/
structure SukDetailPage where
  torrent_name : Option String
  magnets : List String
  size_text : Option String
  seeders : Option Nat
  leechers : Option Nat
  downloads : Option Nat
  resolution : Option String
  codec : Option String
  avg_bitrate_mbps : Option Rat
deriving DecidableEq, Repr

/-- `extract_magnet_infos_from_javdb` (scraper.rs:833-839): JavDB pages expose
no per-magnet table data, so each URI is wrapped with every other field `None`. -/
def extract_magnet_infos_from_javdb (magnets : List String) : List MagnetInfo :=
  magnets.map (fun m =>
    { url := m, name := none, size := none, date := none, seeders := none,
      leechers := none, downloads := none, resolution := none, codec := none,
      avg_bitrate_mbps := none })

/-- `extract_magnet_infos_from_sukebei` (scraper.rs:841-899): every magnet URI
gets the same best-effort metadata read from the detail page. -/
def extract_magnet_infos_from_sukebei (page : SukDetailPage) (magnets : List String) :
    List MagnetInfo :=
  let title := page.torrent_name.getD ""
  magnets.map (fun m =>
    { url := m
      name := (some title).filter (fun s => !s.isEmpty)
      size := page.size_text
      date := none
      seeders := page.seeders
      leechers := page.leechers
      downloads := page.downloads
      resolution := page.resolution
      codec := page.codec
      avg_bitrate_mbps := page.avg_bitrate_mbps })

/-- `parse_sukebei_detail` (scraper.rs:605-642), given the fetched detail
page: title falls back to the search row's title, the identifier field is the
input code upper-cased verbatim. -/
def parse_sukebei_detail (page : SukDetailPage) (code : String) (title_guess : String) :
    AvDetail :=
  let title_text := (page.torrent_name.filter (fun s => !(rust_str_trim s).isEmpty)).getD title_guess
  let magnets := page.magnets
  let magnet_infos := extract_magnet_infos_from_sukebei page magnets
  { code := str_to_uppercase code
    title := title_text
    actor_names := []
    release_date := none
    cover_url := none
    plot := none
    duration_minutes := none
    director := none
    studio := none
    label := none
    series := none
    genres := []
    rating := none
    preview_images := []
    magnet_infos := magnet_infos
    magnets := magnets }

/-- The insert-if-URI-absent step of `fetch_detail_from_sukebei`
(scraper.rs:590-594): append the incoming record unless a record with the
same URI is already present. -/
def insert_magnet_info (existing : List MagnetInfo) (mi : MagnetInfo) : List MagnetInfo :=
  if existing.any (fun x => x.url == mi.url) then existing else existing ++ [mi]

/-- The corresponding step for the raw URI list (scraper.rs:596-598). -/
def insert_magnet (existing : List String) (m : String) : List String :=
  if existing.any (fun x => x == m) then existing else existing ++ [m]

/-- Spec §4.5 `Aggregate`: the source's insert-if-absent step applied across
an incoming list, left to right. -/
def Aggregate (existing incoming : List MagnetInfo) : List MagnetInfo :=
  incoming.foldl insert_magnet_info existing

/-- Row selection of `fetch_detail_from_sukebei` (scraper.rs:540-552): the
first row whose title anchor's upper-cased text contains the code and which
carries an href. -/
def find_first_match (rows : List SukRow) (code : String) : Option SukRow :=
  rows.find? (fun r =>
    match r.title with
    | some t => str_contains_sub (str_to_uppercase t) code && r.href.isSome
    | none => false)

/-- Transport environment of the torrent index source: the outcome of fetching
the search page (rows) and of fetching the selected detail page. -/
structure SukebeiEnv where
  search_page : Except AvError (List SukRow)
  detail_page : Except AvError SukDetailPage
deriving DecidableEq, Repr

/-- `fetch_detail_from_sukebei` (scraper.rs:530-603): transport failures
propagate via `?`; an empty row match fails with the not-found context
`"Sukebei 未找到该番号"`; on a hit, `parse_sukebei_detail` runs and the
matched row's magnet record is inserted if its URI is absent. -/
def fetch_detail_from_sukebei (senv : SukebeiEnv) (code : String) : Except AvError AvDetail :=
  match senv.search_page with
  | .error e => .error e
  | .ok rows =>
    match find_first_match rows code with
    | none => .error .notFound
    | some row =>
      match senv.detail_page with
      | .error e => .error e
      | .ok page =>
        let first_title := row.title.getD ""
        let detail := parse_sukebei_detail page code first_title
        match row.magnet with
        | none => .ok detail
        | some mag =>
          let mi : MagnetInfo :=
            { url := mag, name := some first_title, size := row.size, date := row.date,
              seeders := row.seeders, leechers := row.leechers, downloads := row.downloads,
              resolution := none, codec := none, avg_bitrate_mbps := none }
          .ok { detail with
                magnet_infos := insert_magnet_info detail.magnet_infos mi
                magnets := insert_magnet detail.magnets mag }

/-! ### Commercial catalog source (DMM, src/sources/dmm.rs) -/

/-- The DMM credential pair from the environment: `DMM_API_ID` and
`DMM_AFFILIATE_ID` (`none` models an absent variable). -/
structure DmmConfig where
  api_id : Option String
  affiliate_id : Option String
deriving DecidableEq, Repr

/-- `env_api_id` (dmm.rs:7-9): the variable, filtered to be non-empty. -/
def env_api_id (cfg : DmmConfig) : Option String :=
  cfg.api_id.filter (fun s => !s.isEmpty)

/-- `env_affiliate_id` (dmm.rs:11-13). -/
def env_affiliate_id (cfg : DmmConfig) : Option String :=
  cfg.affiliate_id.filter (fun s => !s.isEmpty)

/-- `dmm_enabled` (dmm.rs:15-17). -/
def dmm_enabled (cfg : DmmConfig) : Bool :=
  (env_api_id cfg).isSome && (env_affiliate_id cfg).isSome

/-- The first item of the DMM ItemList JSON response, with the JSON paths the
source reads (dmm.rs:61-114) carried as fields.  `review_average` is the
already-parsed `f32` rating, modelled as a rational. -/
structure DmmItem where
  title : Option String
  image_large : Option String
  image_list : Option String
  date : Option String
  volume : Option String
  review_duration : Option String
  duration : Option String
  actress_names : List String
  genre_names : List String
  director_name : Option String
  maker_name : Option String
  label_name : Option String
  series_name : Option String
  review_average : Option Rat
  sample_images : List String
deriving DecidableEq, Repr

/-- Construction of the DMM `AvDetail` from the first response item
(dmm.rs:61-136): DMM does not echo the vendor code, so the identifier field is
the provided code upper-cased verbatim. -/
def dmm_item_to_detail (it : DmmItem) (code : String) : AvDetail :=
  { code := str_to_uppercase code
    title := it.title.getD ""
    actor_names := it.actress_names
    release_date := it.date.or it.volume
    cover_url := it.image_large.or it.image_list
    plot := none
    duration_minutes := (it.review_duration.or it.duration).bind String.toNat?
    director := it.director_name
    studio := it.maker_name
    label := it.label_name
    series := it.series_name
    genres := it.genre_names
    rating := it.review_average
    preview_images := it.sample_images
    magnet_infos := []
    magnets := [] }

/-- `fetch_detail_from_dmm` (dmm.rs:19-139).  The second component records
whether the network was used: when the credential pair is incomplete the
adapter returns `Ok(None)` before building any request.  The transport
environment is `Except` for the request outcome, with `Ok none` standing for
an empty `result.items` array. -/
def fetch_detail_from_dmm (cfg : DmmConfig) (net : Except AvError (Option DmmItem))
    (code : String) : Except AvError (Option AvDetail) × Bool :=
  if !dmm_enabled cfg then (.ok none, false)
  else
    match net with
    | .error e => (.error e, true)
    | .ok none => (.ok none, true)
    | .ok (some it) => (.ok (some (dmm_item_to_detail it code)), true)

/-! ### Merge engine and fallback orchestrator (`fetch_detail`, scraper.rs:47-109) -/

/-- The JavDB/JavLibrary field merge inside `fetch_detail` (scraper.rs:77-87):
for each listed field, keep the primary's value when present (scalar) or
non-empty (list), otherwise take the secondary's.  Identifier, title, rating
and the magnet fields are not touched by this block. -/
def merge_javdb_javlibrary (detail jl : AvDetail) : AvDetail :=
  { detail with
    plot := if detail.plot.isNone && jl.plot.isSome then jl.plot else detail.plot
    actor_names :=
      if detail.actor_names.isEmpty && !jl.actor_names.isEmpty then jl.actor_names
      else detail.actor_names
    release_date :=
      if detail.release_date.isNone && jl.release_date.isSome then jl.release_date
      else detail.release_date
    cover_url :=
      if detail.cover_url.isNone && jl.cover_url.isSome then jl.cover_url
      else detail.cover_url
    duration_minutes :=
      if detail.duration_minutes.isNone && jl.duration_minutes.isSome then jl.duration_minutes
      else detail.duration_minutes
    director := if detail.director.isNone && jl.director.isSome then jl.director
      else detail.director
    studio := if detail.studio.isNone && jl.studio.isSome then jl.studio else detail.studio
    label := if detail.label.isNone && jl.label.isSome then jl.label else detail.label
    series := if detail.series.isNone && jl.series.isSome then jl.series else detail.series
    genres := if detail.genres.isEmpty && !jl.genres.isEmpty then jl.genres else detail.genres
    preview_images :=
      if detail.preview_images.isEmpty && !jl.preview_images.isEmpty then jl.preview_images
      else detail.preview_images }

/-- A JavDB listing card (search/top pages): the anchor's href and the title
text the source reads (`.video-title` text, falling back to the anchor text). -/
structure Card where
  href : String
  title : String
deriving DecidableEq, Repr

/-- Environment of one `fetch_detail`/`search` invocation: the boolean DMM
opt-in (`AV_USE_DMM=1`), the DMM credential pair and response, and each
provider's fetched data.  `javdb` is the outcome of
`fetch_detail_from_javdb`, `javlibrary` of `fetch_detail_from_javlibrary`
(whose `Ok(None)` means "no result link found"); both are markup-heavy
parsers whose network/parsing lies behind the transport and markup
collaborators, so their produced records enter the model as data. -/
structure FetchEnv where
  use_dmm : Bool
  dmm_cfg : DmmConfig
  dmm_net : Except AvError (Option DmmItem)
  javdb : Except AvError AvDetail
  javlibrary : Except AvError (Option AvDetail)
  sukebei : SukebeiEnv
  javdb_search_page : Except AvError (List Card)
  sukebei_search_rows : Except AvError (List SukRow)
deriving DecidableEq, Repr

/-- The post-DMM merge of `fetch_detail` (scraper.rs:54-68): backfill
plot/cast/cover/date/duration from JavDB when it succeeds, then always merge
magnets from Sukebei when DMM returned none. -/
def dmm_merge_after (env : FetchEnv) (cu : String) (d : AvDetail) : AvDetail :=
  let d1 := match env.javdb with
    | .ok j =>
      { d with
        plot := if d.plot.isNone && j.plot.isSome then j.plot else d.plot
        actor_names := if d.actor_names.isEmpty && !j.actor_names.isEmpty then j.actor_names
          else d.actor_names
        cover_url := if d.cover_url.isNone && j.cover_url.isSome then j.cover_url
          else d.cover_url
        release_date := if d.release_date.isNone then j.release_date else d.release_date
        duration_minutes := if d.duration_minutes.isNone then j.duration_minutes
          else d.duration_minutes }
    | .error _ => d
  match fetch_detail_from_sukebei env.sukebei cu with
  | .ok s =>
    { d1 with
      magnets := if d1.magnets.isEmpty then s.magnets else d1.magnets
      magnet_infos := if d1.magnet_infos.isEmpty then s.magnet_infos else d1.magnet_infos }
  | .error _ => d1

/-- The JavDB → JavLibrary → Sukebei fallback chain of `fetch_detail`
(scraper.rs:72-109).  JavDB and JavLibrary failures of any kind are swallowed
(`if let Ok(...)`); the final Sukebei fallback's outcome is returned as-is. -/
def fetch_detail_chain (env : FetchEnv) (cu : String) : Except AvError AvDetail :=
  match env.javdb with
  | .ok detail0 =>
    let detail1 := match env.javlibrary with
      | .ok (some jl) => merge_javdb_javlibrary detail0 jl
      | _ => detail0
    let detail2 :=
      if detail1.magnets.isEmpty then
        match fetch_detail_from_sukebei env.sukebei cu with
        | .ok s => if !s.magnets.isEmpty then { detail1 with magnets := s.magnets } else detail1
        | .error _ => detail1
      else detail1
    .ok detail2
  | .error _ =>
    match env.javlibrary with
    | .ok (some jl0) =>
      let jl1 := match fetch_detail_from_sukebei env.sukebei cu with
        | .ok s =>
          { jl0 with
            magnets := if jl0.magnets.isEmpty then s.magnets else jl0.magnets
            magnet_infos := if jl0.magnet_infos.isEmpty then s.magnet_infos
              else jl0.magnet_infos }
        | .error _ => jl0
      .ok jl1
    | _ => fetch_detail_from_sukebei env.sukebei cu

/-- `fetch_detail` (scraper.rs:47-109): upper-case the code; when DMM is
opted in and enabled, try it first (its transport errors propagate via `?`,
an empty result falls through); otherwise run the fallback chain. -/
def fetch_detail (env : FetchEnv) (code : String) : Except AvError AvDetail :=
  let cu := str_to_uppercase code
  if env.use_dmm && dmm_enabled env.dmm_cfg then
    match (fetch_detail_from_dmm env.dmm_cfg env.dmm_net cu).1 with
    | .error e => .error e
    | .ok (some d) => .ok (dmm_merge_after env cu d)
    | .ok none => fetch_detail_chain env cu
  else fetch_detail_chain env cu

/-! ### Search and listings (scraper.rs:111-163, 644-680) -/

/-- Per-card item construction shared by `search_javdb` and `top`
(scraper.rs:152-159, 652-658): code from the title, else the last href
segment; keep only cards with non-empty code and title. -/
def card_to_item (card : Card) : Option AvItem :=
  let title := card.title
  let code := (extract_code_from_title title).getD (((card.href.splitOn "/").getLast?).getD "")
  if !code.isEmpty && !title.isEmpty then
    some { code := str_to_uppercase code, title := title }
  else none

/-- `search_javdb`'s item list from a fetched search page (scraper.rs:644-661). -/
def search_javdb (cards : List Card) : List AvItem :=
  cards.filterMap card_to_item

/-- Per-row item construction of `search_sukebei` (scraper.rs:671-678): rows
without a title anchor or without an extractable code are skipped. -/
def row_to_item (row : SukRow) : Option AvItem :=
  row.title.bind (fun t =>
    (extract_code_from_title t).map (fun c => { code := str_to_uppercase c, title := t }))

/-- `search_sukebei`'s item list from fetched rows (scraper.rs:663-680). -/
def search_sukebei (rows : List SukRow) : List AvItem :=
  rows.filterMap row_to_item

/-- The JavDB-search item list of one invocation, with a failed fetch
defaulting to the empty list (`unwrap_or_default`, scraper.rs:118). -/
def javdb_search_items (env : FetchEnv) : List AvItem :=
  match env.javdb_search_page with
  | .ok cards => search_javdb cards
  | .error _ => []

/-- Likewise for the Sukebei search fallback (scraper.rs:120). -/
def sukebei_search_items (env : FetchEnv) : List AvItem :=
  match env.sukebei_search_rows with
  | .ok rows => search_sukebei rows
  | .error _ => []

/-- The two-tier search fallback (scraper.rs:118-121): JavDB items, replaced
by Sukebei items exactly when empty. -/
def search_fallback_items (env : FetchEnv) : List AvItem :=
  let items := javdb_search_items env
  if items.isEmpty then sukebei_search_items env else items

/-- `search` (scraper.rs:111-123): trim the query; when it looks like a code,
try a direct detail fetch and return a single-item listing on success; in all
other cases run the two-tier search fallback. -/
def search (env : FetchEnv) (query : String) : Except AvError (List AvItem) :=
  let q := rust_str_trim query
  if looks_like_code q then
    match fetch_detail env q with
    | .ok detail => .ok [{ code := detail.code, title := detail.title }]
    | .error _ => .ok (search_fallback_items env)
  else .ok (search_fallback_items env)

/-- The per-page collection loop of `top` (scraper.rs:152-160): push each
card's item and return early (second component `true`) as soon as `limit`
items are gathered. -/
def top_push (limit : Nat) : List AvItem → List Card → List AvItem × Bool
  | items, [] => (items, false)
  | items, card :: rest =>
    match card_to_item card with
    | none => top_push limit items rest
    | some item =>
      let items2 := items ++ [item]
      if limit ≤ items2.length then (items2, true)
      else top_push limit items2 rest

/-- The page loop of `top` (scraper.rs:148-161): fetch each endpoint in turn
(a transport failure propagates via `?`), collect its cards, and stop at the
first page on which the limit is reached. -/
def top_pages (limit : Nat) (items : List AvItem) :
    List (Except AvError (List Card)) → Except AvError (List AvItem)
  | [] => .ok items
  | .error e :: _ => .error e
  | .ok cards :: rest =>
    let r := top_push limit items cards
    if r.2 then .ok r.1 else top_pages limit r.1 rest

/-- `top` (scraper.rs:138-163), over the fetched listing pages (the source
uses two endpoints; the model takes the page list as given). -/
def top (limit : Nat) (pages : List (Except AvError (List Card))) :
    Except AvError (List AvItem) :=
  top_pages limit [] pages

/-! ### Helper lemmas on character runs -/

lemma takeWhile_all (p : Char → Bool) : ∀ l : List Char, (l.takeWhile p).all p = true := by
  intro l
  induction l with
  | nil => rfl
  | cons a t ih =>
    rw [List.takeWhile_cons]
    by_cases h : p a = true
    · simp [h, ih]
    · simp [h]

lemma takeWhile_append_all {p : Char → Bool} :
    ∀ (l1 l2 : List Char), l1.all p = true →
      (l1 ++ l2).takeWhile p = l1 ++ l2.takeWhile p := by
  intro l1
  induction l1 with
  | nil => intro l2 _; rfl
  | cons a t ih =>
    intro l2 h
    rw [List.all_cons, Bool.and_eq_true] at h
    rw [List.cons_append, List.takeWhile_cons, if_pos h.1, ih l2 h.2]
    rfl

lemma takeWhile_eq_nil_of_head {p : Char → Bool} {c : Char} (tl : List Char)
    (h : p c = false) : (c :: tl).takeWhile p = [] := by
  rw [List.takeWhile_cons, if_neg]
  simp [h]

lemma takeWhile_drop_id (p : Char → Bool) : ∀ l : List Char,
    l.takeWhile p ++ l.drop (l.takeWhile p).length = l := by
  intro l
  induction l with
  | nil => rfl
  | cons a t ih =>
    rw [List.takeWhile_cons]
    by_cases h : p a = true
    · rw [if_pos h]
      simp only [List.length_cons, List.drop_succ_cons, List.cons_append]
      rw [ih]
    · rw [if_neg (by simp [h])]
      simp

lemma isSepChar_vals {c : Char} (h : isSepChar c = true) :
    c.toNat = 45 ∨ c.toNat = 95 ∨ c.toNat = 32 := by
  rw [isSepChar, Bool.or_eq_true, Bool.or_eq_true] at h
  rcases h with (h | h) | h
  · left; rw [eq_of_beq h]; rfl
  · right; left; rw [eq_of_beq h]; rfl
  · right; right; rw [eq_of_beq h]; rfl

lemma isDigitChar_vals {c : Char} (h : isDigitChar c = true) :
    48 ≤ c.toNat ∧ c.toNat ≤ 57 := by
  rw [isDigitChar, Bool.and_eq_true, decide_eq_true_eq, decide_eq_true_eq] at h
  exact h

lemma sep_not_alpha {c : Char} (h : isSepChar c = true) : isAsciiAlphaChar c = false := by
  have hv := isSepChar_vals h
  rw [isAsciiAlphaChar]
  simp only [Bool.or_eq_false_iff, Bool.and_eq_false_iff, decide_eq_false_iff_not, not_le]
  rcases hv with hv | hv | hv <;> omega

lemma digit_not_alpha {c : Char} (h : isDigitChar c = true) : isAsciiAlphaChar c = false := by
  have hv := isDigitChar_vals h
  rw [isAsciiAlphaChar]
  simp only [Bool.or_eq_false_iff, Bool.and_eq_false_iff, decide_eq_false_iff_not, not_le]
  omega

lemma digit_not_sep {c : Char} (h : isDigitChar c = true) : isSepChar c = false := by
  have hv := isDigitChar_vals h
  rw [isSepChar]
  simp only [Bool.or_eq_false_iff, beq_eq_false_iff_ne, ne_eq]
  refine ⟨⟨fun hc => ?_, fun hc => ?_⟩, fun hc => ?_⟩ <;>
    (subst hc; exact absurd hv (by decide))

/-! ### Claim C7 -/

lemma match_code_at_decomp (L S D R : List Char)
    (hLall : L.all isAsciiAlphaChar = true) (hL2 : 2 ≤ L.length) (hL5 : L.length ≤ 5)
    (hS : S = [] ∨ ∃ c, S = [c] ∧ isSepChar c = true)
    (hDall : D.all isDigitChar = true) (hD2 : 2 ≤ D.length) :
    match_code_at (L ++ (S ++ (D ++ R))) =
      some (L, (D ++ R.takeWhile isDigitChar).take 5) := by
  obtain ⟨d, D0, rfl⟩ : ∃ d D0, D = d :: D0 := by
    cases D with
    | nil => simp at hD2
    | cons d D0 => exact ⟨d, D0, rfl⟩
  have hd : isDigitChar d = true := by
    rw [List.all_cons, Bool.and_eq_true] at hDall
    exact hDall.1
  have htail_nil : (S ++ ((d :: D0) ++ R)).takeWhile isAsciiAlphaChar = [] := by
    rcases hS with rfl | ⟨c, rfl, hc⟩
    · rw [List.nil_append, List.cons_append]
      exact takeWhile_eq_nil_of_head _ (digit_not_alpha hd)
    · rw [List.singleton_append]
      exact takeWhile_eq_nil_of_head _ (sep_not_alpha hc)
  have hTW : (L ++ (S ++ ((d :: D0) ++ R))).takeWhile isAsciiAlphaChar = L := by
    rw [takeWhile_append_all _ _ hLall, htail_nil, List.append_nil]
  have hdrop : (L ++ (S ++ ((d :: D0) ++ R))).drop L.length = S ++ ((d :: D0) ++ R) :=
    List.drop_left L _
  have hDtw : ((d :: D0) ++ R).takeWhile isDigitChar =
      (d :: D0) ++ R.takeWhile isDigitChar := takeWhile_append_all _ _ hDall
  have hDlen : 2 ≤ ((d :: D0) ++ R.takeWhile isDigitChar).length := by
    rw [List.length_append]
    omega
  simp only [match_code_at]
  rw [hTW, if_pos (show 2 ≤ L.length ∧ L.length ≤ 5 from ⟨hL2, hL5⟩), hdrop]
  rcases hS with rfl | ⟨c, rfl, hc⟩
  · rw [List.nil_append, List.cons_append, List.head?_cons, Option.any_some,
      digit_not_sep hd]
    simp only [Bool.false_eq_true, if_false]
    have hDtw2 : List.takeWhile isDigitChar (d :: (D0 ++ R)) =
        d :: (D0 ++ List.takeWhile isDigitChar R) := by
      have h0 := hDtw
      rwa [List.cons_append, List.cons_append] at h0
    have hDlen2 : 2 ≤ (d :: (D0 ++ List.takeWhile isDigitChar R)).length := by
      have h1 := hD2
      simp only [List.length_cons, List.length_append] at h1 ⊢
      omega
    rw [hDtw2, if_pos hDlen2]
    rfl
  · rw [List.singleton_append, List.head?_cons, Option.any_some, hc]
    simp only [if_true, List.tail_cons]
    rw [hDtw, if_pos hDlen]

/-- Claim C7: for every string matching `^[A-Za-z]{2,5}[-_ ]?\d{2,5}` —
presented as a decomposition of the string into 2–5 letters `L`, an optional
separator `S`, 2–5 digits `D` and a remainder `R` — identifier extraction
returns the upper-cased `LETTERS-DIGITS` form built from the matched letters
and digits (the digit group being matched greedily: the digit run `D`
extended into `R`, capped at five digits). -/
theorem c7_extract_code_canonical_form (s : String) (L S D R : List Char)
    (hdecomp : s.data = L ++ (S ++ (D ++ R)))
    (hLall : L.all isAsciiAlphaChar = true) (hL2 : 2 ≤ L.length) (hL5 : L.length ≤ 5)
    (hS : S = [] ∨ ∃ c, S = [c] ∧ isSepChar c = true)
    (hDall : D.all isDigitChar = true) (hD2 : 2 ≤ D.length) (hD5 : D.length ≤ 5) :
    extract_code_from_title s =
      some ⟨L.map rust_char_to_upper ++ '-' :: (D ++ R.takeWhile isDigitChar).take 5⟩ := by
  have hmatch := match_code_at_decomp L S D R hLall hL2 hL5 hS hDall hD2
  obtain ⟨a, L1, rfl⟩ : ∃ a L1, L = a :: L1 := by
    cases L with
    | nil => simp at hL2
    | cons a L1 => exact ⟨a, L1, rfl⟩
  rw [List.cons_append] at hmatch
  simp only [extract_code_from_title, hdecomp, List.cons_append, find_code]
  rw [hmatch]
  rfl

/-- Witness for C7 at the two examples named by the claim. -/
theorem c7_witness :
    extract_code_from_title "ssis001" = some "SSIS-001"
    ∧ extract_code_from_title "Fancy Title ABC-123 Extra" = some "ABC-123" := by
  constructor
  · have h := c7_extract_code_canonical_form "ssis001"
      ['s', 's', 'i', 's'] [] ['0', '0', '1'] []
      (by decide) (by decide) (by decide) (by decide)
      (Or.inl rfl) (by decide) (by decide) (by decide)
    rw [h]
    rfl
  · decide

/-! ### Claim C2 -/

lemma canon_decomp {s : String} (h : isCanonicalCode s = true) :
    ∃ L ds, s.data = L ++ '-' :: ds ∧ L.all isUpperAlphaChar = true ∧
      ds.all isDigitChar = true := by
  simp only [isCanonicalCode] at h
  have hid := takeWhile_drop_id isUpperAlphaChar s.data
  obtain ⟨rest, hr⟩ : ∃ r, s.data.drop ((s.data.takeWhile isUpperAlphaChar).length) = r :=
    ⟨_, rfl⟩
  rw [hr] at h hid
  cases rest with
  | nil => simp at h
  | cons c ds =>
    simp only [List.head?_cons, List.tail_cons, Bool.and_eq_true, beq_iff_eq,
      and_assoc] at h
    obtain ⟨h1, h2, hc, hds, h4, h5⟩ := h
    subst hc
    exact ⟨s.data.takeWhile isUpperAlphaChar, ds, hid.symm, takeWhile_all _ _, hds⟩

lemma map_fix_of_all {p : Char → Bool} {f : Char → Char}
    (hf : ∀ c, p c = true → f c = c) :
    ∀ l : List Char, l.all p = true → l.map f = l := by
  intro l
  induction l with
  | nil => intro _; rfl
  | cons a t ih =>
    intro h
    rw [List.all_cons, Bool.and_eq_true] at h
    rw [List.map_cons, hf a h.1, ih h.2]

lemma rust_char_to_upper_fix {c : Char} (h : c.toNat < 97) : rust_char_to_upper c = c := by
  rw [rust_char_to_upper]
  split
  · next hc =>
    rw [Bool.and_eq_true, decide_eq_true_eq, decide_eq_true_eq] at hc
    omega
  · rfl

lemma canon_to_uppercase_fix {s : String} (h : isCanonicalCode s = true) :
    str_to_uppercase s = s := by
  obtain ⟨L, ds, hsplit, hL, hds⟩ := canon_decomp h
  have h1 : L.map rust_char_to_upper = L :=
    map_fix_of_all (fun c hc => rust_char_to_upper_fix (by
      rw [isUpperAlphaChar, Bool.and_eq_true, decide_eq_true_eq, decide_eq_true_eq] at hc
      omega)) L hL
  have h2 : ds.map rust_char_to_upper = ds :=
    map_fix_of_all (fun c hc => rust_char_to_upper_fix (by
      rw [isDigitChar, Bool.and_eq_true, decide_eq_true_eq, decide_eq_true_eq] at hc
      omega)) ds hds
  have h3 : rust_char_to_upper '-' = '-' := by decide
  have hmap : s.data.map rust_char_to_upper = s.data := by
    rw [hsplit, List.map_append, List.map_cons, h1, h2, h3]
  simp only [str_to_uppercase]
  rw [hmap]

/-- Claim C2, corrected: neither the Torrent Index adapter nor the Commercial
Catalog adapter re-formats the identifier into canonical `LETTERS-DIGITS`
form; each returns the input code upper-cased verbatim, so the record's
identifier is canonical exactly when the (upper-cased) input already was. -/
theorem c2_adapter_code_uppercase (page : SukDetailPage) (code title_guess : String)
    (it : DmmItem) :
    (parse_sukebei_detail page code title_guess).code = str_to_uppercase code
    ∧ (dmm_item_to_detail it code).code = str_to_uppercase code
    ∧ (isCanonicalCode code = true →
        (parse_sukebei_detail page code title_guess).code = code
        ∧ (dmm_item_to_detail it code).code = code) := by
  refine ⟨rfl, rfl, fun h => ⟨?_, ?_⟩⟩
  · show str_to_uppercase code = code
    exact canon_to_uppercase_fix h
  · show str_to_uppercase code = code
    exact canon_to_uppercase_fix h

/-- Counterexample to C2 as stated: for the input code `"ssis001"` (which the
orchestrator passes through verbatim, e.g. from `search` on that query), both
adapters produce the identifier `"SSIS001"`, which is not in canonical
`LETTERS-DIGITS` form. -/
theorem c2_counterexample :
    (parse_sukebei_detail
        { torrent_name := none, magnets := [], size_text := none, seeders := none,
          leechers := none, downloads := none, resolution := none, codec := none,
          avg_bitrate_mbps := none } "ssis001" "t").code = "SSIS001"
    ∧ isCanonicalCode "SSIS001" = false
    ∧ (dmm_item_to_detail
        { title := none, image_large := none, image_list := none, date := none,
          volume := none, review_duration := none, duration := none,
          actress_names := [], genre_names := [], director_name := none,
          maker_name := none, label_name := none, series_name := none,
          review_average := none, sample_images := [] } "ssis001").code = "SSIS001" := by
  refine ⟨?_, by decide, ?_⟩ <;> decide

/-- Witness for the corrected C2 at a canonical input. -/
theorem c2_witness :
    (parse_sukebei_detail
        { torrent_name := none, magnets := [], size_text := none, seeders := none,
          leechers := none, downloads := none, resolution := none, codec := none,
          avg_bitrate_mbps := none } "AB-12" "t").code = "AB-12" := by
  have h := (c2_adapter_code_uppercase
    { torrent_name := none, magnets := [], size_text := none, seeders := none,
      leechers := none, downloads := none, resolution := none, codec := none,
      avg_bitrate_mbps := none } "AB-12" "t"
    { title := none, image_large := none, image_list := none, date := none,
      volume := none, review_duration := none, duration := none,
      actress_names := [], genre_names := [], director_name := none,
      maker_name := none, label_name := none, series_name := none,
      review_average := none, sample_images := [] }).2.2 (by decide)
  exact h.1

/-! ### Claim C1 -/

/-- Claim C1, corrected/amended: with the opt-in DMM path off, failures of the
Primary (JavDB) and Secondary (JavLibrary) metadata sources of any kind —
transport-level included — are swallowed, and when the Torrent Index source
was reachable but matched no row, the whole detail fetch fails with
`NotFound`.  (A transport-level failure of the Torrent Index source itself
propagates instead; see `c1_counterexample`.) -/
theorem c1_exhausted_not_found (env : FetchEnv) (code : String) (e1 : AvError)
    (rows : List SukRow)
    (hdmm : env.use_dmm = false)
    (hjavdb : env.javdb = .error e1)
    (hjl : ∀ d, env.javlibrary ≠ .ok (some d))
    (hsp : env.sukebei.search_page = .ok rows)
    (hnone : find_first_match rows (str_to_uppercase code) = none) :
    fetch_detail env code = .error .notFound := by
  simp only [fetch_detail, hdmm, Bool.false_and, Bool.false_eq_true, if_false]
  simp only [fetch_detail_chain, hjavdb]
  cases h2 : env.javlibrary with
  | error e =>
    simp only [fetch_detail_from_sukebei, hsp, hnone]
  | ok o =>
    cases o with
    | some jl => exact absurd h2 (hjl jl)
    | none => simp only [fetch_detail_from_sukebei, hsp, hnone]

/-- Environment in which every source fails at the transport level. -/
def envC1 : FetchEnv :=
  { use_dmm := false
    dmm_cfg := { api_id := none, affiliate_id := none }
    dmm_net := .ok none
    javdb := .error .transport
    javlibrary := .error .transport
    sukebei := { search_page := .error .transport, detail_page := .error .transport }
    javdb_search_page := .error .transport
    sukebei_search_rows := .error .transport }

/-- Counterexample to C1 as stated: when every per-source failure is a
transport failure — in particular the Torrent Index source's own search fetch
— the detail fetch surfaces the transport error, not `NotFound`. -/
theorem c1_counterexample :
    fetch_detail envC1 "AB-12" = .error .transport
    ∧ fetch_detail envC1 "AB-12" ≠ .error .notFound := by
  exact ⟨by decide, by decide⟩

/-- Environment in which the metadata sources fail at the transport level but
the torrent index search page loads and contains no rows. -/
def envC1w : FetchEnv :=
  { use_dmm := false
    dmm_cfg := { api_id := none, affiliate_id := none }
    dmm_net := .ok none
    javdb := .error .transport
    javlibrary := .error .transport
    sukebei := { search_page := .ok [], detail_page := .error .transport }
    javdb_search_page := .error .transport
    sukebei_search_rows := .error .transport }

/-- Witness for the amended C1. -/
theorem c1_witness : fetch_detail envC1w "AB-12" = .error .notFound :=
  c1_exhausted_not_found envC1w "AB-12" .transport [] rfl rfl
    (fun _ h => Except.noConfusion h) rfl rfl

/-! ### Claim C3 -/

/-- Claim C3: when the Primary Metadata Source record has an empty magnet
list and the Torrent Index source yields a record with a non-empty magnet
list, the final record's magnets equal exactly the Torrent Index record's
magnets; duplicate-freeness of that list carries over verbatim. -/
theorem c3_javdb_empty_magnets_backfill (env : FetchEnv) (code : String) (d s : AvDetail)
    (hdmm : env.use_dmm = false)
    (hjavdb : env.javdb = .ok d)
    (hmag : d.magnets = [])
    (hsuk : fetch_detail_from_sukebei env.sukebei (str_to_uppercase code) = .ok s)
    (hne : s.magnets ≠ []) :
    ∃ r, fetch_detail env code = .ok r ∧ r.magnets = s.magnets
      ∧ (s.magnets.Nodup → r.magnets.Nodup) := by
  have hmerge : ∀ jl, (merge_javdb_javlibrary d jl).magnets = d.magnets := fun _ => rfl
  have hne2 : s.magnets.isEmpty = false := by
    cases hsm : s.magnets with
    | nil => exact absurd hsm hne
    | cons a t => rfl
  simp only [fetch_detail, hdmm, Bool.false_and, Bool.false_eq_true, if_false]
  simp only [fetch_detail_chain, hjavdb]
  cases h2 : env.javlibrary with
  | error e =>
    simp only [hmag, List.isEmpty_nil, if_true, hsuk, hne2, Bool.not_false, if_true]
    exact ⟨_, rfl, rfl, fun hn => hn⟩
  | ok o =>
    cases o with
    | some jl =>
      simp only [hmerge, hmag, List.isEmpty_nil, if_true, hsuk, hne2, Bool.not_false,
        if_true]
      exact ⟨_, rfl, rfl, fun hn => hn⟩
    | none =>
      simp only [hmag, List.isEmpty_nil, if_true, hsuk, hne2, Bool.not_false, if_true]
      exact ⟨_, rfl, rfl, fun hn => hn⟩

/-- Concrete Sukebei detail page with two magnet links. -/
def pageC3 : SukDetailPage :=
  { torrent_name := some "AB-12 1080p", magnets := ["magnet:a", "magnet:b"],
    size_text := none, seeders := none, leechers := none, downloads := none,
    resolution := none, codec := none, avg_bitrate_mbps := none }

/-- Concrete Sukebei search row matching `AB-12`. -/
def rowC3 : SukRow :=
  { title := some "AB-12 1080p", href := some "/view/1", magnet := none, size := none,
    date := none, seeders := none, leechers := none, downloads := none }

/-- Concrete JavDB record with an empty magnet list. -/
def dC3 : AvDetail :=
  { code := "AB-12", title := "t", actor_names := [], release_date := none,
    cover_url := none, plot := none, duration_minutes := none, director := none,
    studio := none, label := none, series := none, genres := [], rating := none,
    preview_images := [], magnet_infos := [], magnets := [] }

/-- Environment for the C3 witness. -/
def envC3 : FetchEnv :=
  { use_dmm := false
    dmm_cfg := { api_id := none, affiliate_id := none }
    dmm_net := .ok none
    javdb := .ok dC3
    javlibrary := .ok none
    sukebei := { search_page := .ok [rowC3], detail_page := .ok pageC3 }
    javdb_search_page := .error .transport
    sukebei_search_rows := .error .transport }

/-- The Torrent Index record the C3 witness environment produces. -/
def sC3 : AvDetail := parse_sukebei_detail pageC3 "AB-12" "AB-12 1080p"

/-- Witness for C3: with JavDB yielding no magnets and Sukebei yielding two,
the final record carries exactly those two. -/
theorem c3_witness :
    ∃ r, fetch_detail envC3 "ab-12" = .ok r ∧ r.magnets = ["magnet:a", "magnet:b"] := by
  obtain ⟨r, h1, h2, -⟩ := c3_javdb_empty_magnets_backfill envC3 "ab-12" dC3 sC3
    rfl rfl rfl (by decide) (by decide)
  refine ⟨r, h1, ?_⟩
  rw [h2]
  rfl

/-! ### Claim C4 -/

lemma opt_keep {α : Type} (a b : Option α) :
    (if a.isNone && b.isSome then b else a) = a.or b := by
  cases a <;> cases b <;> rfl

lemma list_keep {α : Type} (a b : List α) :
    (if a.isEmpty && !b.isEmpty then b else a) = if a.isEmpty then b else a := by
  cases a <;> cases b <;> rfl

/-- Claim C4, corrected/amended: the merge applies the keep-primary rule to
plot, release date, cover, duration, director, studio, label, series (scalars:
primary's value when present, else secondary's) and to cast, genres, preview
images (lists: primary's when non-empty, else secondary's); rating,
identifier, title and the magnet fields are NOT merged — they always stay the
primary's, even when absent there and present in the secondary. -/
theorem c4_field_merge (p s : AvDetail) :
    (merge_javdb_javlibrary p s).plot = p.plot.or s.plot
  ∧ (merge_javdb_javlibrary p s).release_date = p.release_date.or s.release_date
  ∧ (merge_javdb_javlibrary p s).cover_url = p.cover_url.or s.cover_url
  ∧ (merge_javdb_javlibrary p s).duration_minutes = p.duration_minutes.or s.duration_minutes
  ∧ (merge_javdb_javlibrary p s).director = p.director.or s.director
  ∧ (merge_javdb_javlibrary p s).studio = p.studio.or s.studio
  ∧ (merge_javdb_javlibrary p s).label = p.label.or s.label
  ∧ (merge_javdb_javlibrary p s).series = p.series.or s.series
  ∧ (merge_javdb_javlibrary p s).actor_names =
      (if p.actor_names.isEmpty then s.actor_names else p.actor_names)
  ∧ (merge_javdb_javlibrary p s).genres =
      (if p.genres.isEmpty then s.genres else p.genres)
  ∧ (merge_javdb_javlibrary p s).preview_images =
      (if p.preview_images.isEmpty then s.preview_images else p.preview_images)
  ∧ (merge_javdb_javlibrary p s).rating = p.rating
  ∧ (merge_javdb_javlibrary p s).code = p.code
  ∧ (merge_javdb_javlibrary p s).title = p.title
  ∧ (merge_javdb_javlibrary p s).magnets = p.magnets
  ∧ (merge_javdb_javlibrary p s).magnet_infos = p.magnet_infos := by
  refine ⟨?_, ?_, ?_, ?_, ?_, ?_, ?_, ?_, ?_, ?_, ?_, rfl, rfl, rfl, rfl, rfl⟩ <;>
    simp only [merge_javdb_javlibrary, opt_keep, list_keep]

/-- Primary record for the C4 counterexample: no rating. -/
def pC4 : AvDetail :=
  { code := "AB-12", title := "t", actor_names := [], release_date := none,
    cover_url := none, plot := none, duration_minutes := none, director := none,
    studio := none, label := none, series := none, genres := [], rating := none,
    preview_images := [], magnet_infos := [], magnets := [] }

/-- Secondary record for the C4 counterexample: rating present. -/
def sC4 : AvDetail :=
  { code := "AB-12", title := "t2", actor_names := [], release_date := none,
    cover_url := none, plot := some "x", duration_minutes := none, director := none,
    studio := none, label := none, series := none, genres := [], rating := some 5,
    preview_images := [], magnet_infos := [], magnets := [] }

/-- Counterexample to C4 as stated: the rating field is a field of the Partial
Record, absent in the primary and present in the secondary, yet the merge does
not take the secondary's value — the field-by-field rule is not applied to
rating (nor to title, identifier or the magnet fields). -/
theorem c4_counterexample :
    pC4.rating = none ∧ sC4.rating = some 5
    ∧ (merge_javdb_javlibrary pC4 sC4).rating = none
    ∧ (merge_javdb_javlibrary pC4 sC4).rating ≠ sC4.rating := by
  exact ⟨rfl, rfl, rfl, by decide⟩

/-! ### Claim C5 -/

lemma aggregate_nil (A : List MagnetInfo) : Aggregate A [] = A := rfl

lemma aggregate_cons (A : List MagnetInfo) (b : MagnetInfo) (B : List MagnetInfo) :
    Aggregate A (b :: B) = Aggregate (insert_magnet_info A b) B := rfl

lemma insert_magnet_info_cases (A : List MagnetInfo) (b : MagnetInfo) :
    insert_magnet_info A b = A ∨
      (insert_magnet_info A b = A ++ [b] ∧ b.url ∉ A.map MagnetInfo.url) := by
  rw [insert_magnet_info]
  by_cases h : A.any (fun x => x.url == b.url) = true
  · left
    rw [if_pos h]
  · right
    rw [if_neg h]
    refine ⟨rfl, fun hmem => h ?_⟩
    rw [List.any_eq_true]
    obtain ⟨x, hx, hxe⟩ := List.mem_map.mp hmem
    exact ⟨x, hx, by rw [hxe, beq_self_eq_true]⟩

lemma aggregate_append_decomp : ∀ (B A : List MagnetInfo),
    ∃ t, Aggregate A B = A ++ t ∧
      ∀ mi ∈ t, mi ∈ B ∧ mi.url ∉ A.map MagnetInfo.url := by
  intro B
  induction B with
  | nil =>
    intro A
    exact ⟨[], by simp [aggregate_nil], by simp⟩
  | cons b B ih =>
    intro A
    rcases insert_magnet_info_cases A b with hin | ⟨hin, hnot⟩
    · obtain ⟨t, ht, hmem⟩ := ih A
      refine ⟨t, ?_, fun mi hmi =>
        ⟨List.mem_cons_of_mem _ (hmem mi hmi).1, (hmem mi hmi).2⟩⟩
      rw [aggregate_cons, hin, ht]
    · obtain ⟨t, ht, hmem⟩ := ih (A ++ [b])
      refine ⟨b :: t, ?_, ?_⟩
      · rw [aggregate_cons, hin, ht, List.append_assoc]
        rfl
      · intro mi hmi
        rcases List.mem_cons.mp hmi with rfl | hmi2
        · exact ⟨List.mem_cons_self _ _, hnot⟩
        · have h3 := hmem mi hmi2
          refine ⟨List.mem_cons_of_mem _ h3.1, fun hc => h3.2 ?_⟩
          rw [List.map_append]
          exact List.mem_append_left _ hc

lemma aggregate_any_mono {p : MagnetInfo → Bool} (B A : List MagnetInfo)
    (h : A.any p = true) : (Aggregate A B).any p = true := by
  obtain ⟨t, ht, -⟩ := aggregate_append_decomp B A
  rw [ht, List.any_append, h, Bool.true_or]

lemma insert_magnet_info_any_self (A : List MagnetInfo) (b : MagnetInfo) :
    (insert_magnet_info A b).any (fun x => x.url == b.url) = true := by
  rw [insert_magnet_info]
  by_cases h : A.any (fun x => x.url == b.url) = true
  · rw [if_pos h]
    exact h
  · rw [if_neg h, List.any_append]
    simp

lemma aggregate_all_present : ∀ (B A : List MagnetInfo) (b : MagnetInfo), b ∈ B →
    (Aggregate A B).any (fun x => x.url == b.url) = true := by
  intro B
  induction B with
  | nil =>
    intro A b hb
    simp at hb
  | cons hd B ih =>
    intro A b hb
    rw [aggregate_cons]
    rcases List.mem_cons.mp hb with rfl | hb2
    · exact aggregate_any_mono B _ (insert_magnet_info_any_self A b)
    · exact ih _ b hb2

lemma aggregate_stable : ∀ (B X : List MagnetInfo),
    (∀ b ∈ B, X.any (fun x => x.url == b.url) = true) → Aggregate X B = X := by
  intro B
  induction B with
  | nil => intro X _; rfl
  | cons hd B ih =>
    intro X h
    rw [aggregate_cons, insert_magnet_info, if_pos (h hd (List.mem_cons_self _ _))]
    exact ih X (fun b hb => h b (List.mem_cons_of_mem _ hb))

lemma aggregate_idem (A B : List MagnetInfo) :
    Aggregate (Aggregate A B) B = Aggregate A B :=
  aggregate_stable B _ (fun b hb => aggregate_all_present B A b hb)

lemma insert_magnet_info_nodup (A : List MagnetInfo) (b : MagnetInfo)
    (h : (A.map MagnetInfo.url).Nodup) :
    ((insert_magnet_info A b).map MagnetInfo.url).Nodup := by
  rcases insert_magnet_info_cases A b with hin | ⟨hin, hnot⟩
  · rw [hin]
    exact h
  · rw [hin, List.map_append, List.nodup_append]
    refine ⟨h, List.nodup_singleton _, fun x hx hy => ?_⟩
    simp only [List.map_cons, List.map_nil, List.mem_singleton] at hy
    subst hy
    exact hnot hx

lemma aggregate_nodup : ∀ (B A : List MagnetInfo),
    (A.map MagnetInfo.url).Nodup → ((Aggregate A B).map MagnetInfo.url).Nodup := by
  intro B
  induction B with
  | nil => intro A h; exact h
  | cons b B ih =>
    intro A h
    rw [aggregate_cons]
    exact ih _ (insert_magnet_info_nodup A b h)

/-- Claim C5: magnet aggregation (the source's insert-if-URI-absent step
folded over the incoming records) appends only incoming records whose URI is
not already present, never reorders the existing records (the existing list is
a prefix of the result), preserves URI-uniqueness of the aggregate list, and
is idempotent. -/
theorem c5_aggregate_properties (A B : List MagnetInfo) :
    (∃ t, Aggregate A B = A ++ t ∧
      ∀ mi ∈ t, mi ∈ B ∧ mi.url ∉ A.map MagnetInfo.url)
    ∧ Aggregate (Aggregate A B) B = Aggregate A B
    ∧ ((A.map MagnetInfo.url).Nodup → ((Aggregate A B).map MagnetInfo.url).Nodup) :=
  ⟨aggregate_append_decomp B A, aggregate_idem A B, aggregate_nodup B A⟩

/-- Existing magnet record for the C5 witness. -/
def miC5a : MagnetInfo :=
  { url := "magnet:u1", name := none, size := none, date := none, seeders := none,
    leechers := none, downloads := none, resolution := none, codec := none,
    avg_bitrate_mbps := none }

/-- Incoming duplicate-URI record for the C5 witness. -/
def miC5b : MagnetInfo :=
  { url := "magnet:u1", name := some "dup", size := none, date := none, seeders := none,
    leechers := none, downloads := none, resolution := none, codec := none,
    avg_bitrate_mbps := none }

/-- Incoming fresh-URI record for the C5 witness. -/
def miC5c : MagnetInfo :=
  { url := "magnet:u2", name := none, size := none, date := none, seeders := none,
    leechers := none, downloads := none, resolution := none, codec := none,
    avg_bitrate_mbps := none }

/-- Witness for C5 on concrete records: the duplicate URI is skipped, the
fresh one appended, re-aggregation changes nothing, uniqueness holds. -/
theorem c5_witness :
    Aggregate (Aggregate [miC5a] [miC5b, miC5c]) [miC5b, miC5c] =
      Aggregate [miC5a] [miC5b, miC5c]
    ∧ ((Aggregate [miC5a] [miC5b, miC5c]).map MagnetInfo.url).Nodup
    ∧ Aggregate [miC5a] [miC5b, miC5c] = [miC5a, miC5c] := by
  have h := c5_aggregate_properties [miC5a] [miC5b, miC5c]
  exact ⟨h.2.1, h.2.2 (by decide), by decide⟩

/-! ### Claim C6 -/

/-- Claim C6, corrected/amended: the query-shape test actually used is
`looks_like_code` on the trimmed query — regex `(?i)^[a-z]{2,5}-?\d{2,5}`,
whose separator is an optional hyphen only (not the claim's `[-_ ]?`).  When
it holds and the direct detail fetch succeeds, search returns the single-item
listing built from the detail's identifier and title; when it fails to hold,
or the detail fetch fails, search runs the two-tier fallback, using the
Torrent Index search exactly when the Primary search yields zero items. -/
theorem c6_search_dispatch (env : FetchEnv) (query : String) :
    (∀ d, looks_like_code (rust_str_trim query) = true →
        fetch_detail env (rust_str_trim query) = .ok d →
        search env query = .ok [{ code := d.code, title := d.title }])
    ∧ (∀ e, looks_like_code (rust_str_trim query) = true →
        fetch_detail env (rust_str_trim query) = .error e →
        search env query = .ok (search_fallback_items env))
    ∧ (looks_like_code (rust_str_trim query) = false →
        search env query = .ok (search_fallback_items env))
    ∧ (javdb_search_items env = [] →
        search_fallback_items env = sukebei_search_items env)
    ∧ (javdb_search_items env ≠ [] →
        search_fallback_items env = javdb_search_items env) := by
  refine ⟨?_, ?_, ?_, ?_, ?_⟩
  · intro d hlc hd
    simp only [search, hlc, if_true, hd]
  · intro e hlc hd
    simp only [search, hlc, if_true, hd]
  · intro hlc
    simp only [search, hlc, Bool.false_eq_true, if_false]
  · intro hj
    simp only [search_fallback_items, hj, List.isEmpty_nil, if_true]
  · intro hj
    have hne : (javdb_search_items env).isEmpty = false := by
      cases hc : javdb_search_items env with
      | nil => exact absurd hc hj
      | cons a t => rfl
    simp only [search_fallback_items, hne, Bool.false_eq_true, if_false]

/-- JavDB hit record for the C6 counterexample. -/
def dC6 : AvDetail :=
  { code := "AB-12", title := "hit", actor_names := [], release_date := none,
    cover_url := none, plot := none, duration_minutes := none, director := none,
    studio := none, label := none, series := none, genres := [], rating := none,
    preview_images := [], magnet_infos := [], magnets := ["m"] }

/-- Environment for the C6 counterexample: the direct detail fetch would
succeed, but both search pages are empty. -/
def envC6 : FetchEnv :=
  { use_dmm := false
    dmm_cfg := { api_id := none, affiliate_id := none }
    dmm_net := .ok none
    javdb := .ok dC6
    javlibrary := .ok none
    sukebei := { search_page := .error .transport, detail_page := .error .transport }
    javdb_search_page := .ok []
    sukebei_search_rows := .ok [] }

/-- Counterexample to C6 as stated: the query `"ab 12"` matches the claim's
pattern `[A-Za-z]{2,5}[-_ ]?\d{2,5}` at the start (space separator), and the
direct detail fetch would succeed, yet `search` never attempts it — the
source's `looks_like_code` accepts only an optional hyphen — and returns the
(empty) fallback listing instead of the single-item listing. -/
theorem c6_counterexample :
    claim_query_pattern "ab 12" = true
    ∧ looks_like_code "ab 12" = false
    ∧ fetch_detail envC6 "ab 12" = .ok dC6
    ∧ search envC6 "ab 12" = .ok []
    ∧ (Except.ok [] : Except AvError (List AvItem)) ≠
        .ok [{ code := dC6.code, title := dC6.title }] := by
  refine ⟨by decide, by decide, by decide, by decide, by decide⟩

/-- JavDB hit record for the C6 witness. -/
def dC6w : AvDetail :=
  { code := "CD-34", title := "w", actor_names := [], release_date := none,
    cover_url := none, plot := none, duration_minutes := none, director := none,
    studio := none, label := none, series := none, genres := [], rating := none,
    preview_images := [], magnet_infos := [], magnets := ["m"] }

/-- Environment for the C6 witness. -/
def envC6w : FetchEnv :=
  { use_dmm := false
    dmm_cfg := { api_id := none, affiliate_id := none }
    dmm_net := .ok none
    javdb := .ok dC6w
    javlibrary := .ok none
    sukebei := { search_page := .error .transport, detail_page := .error .transport }
    javdb_search_page := .ok []
    sukebei_search_rows := .ok [] }

/-- Witness for the amended C6: a code-shaped query (with surrounding
whitespace trimmed away) is answered by the direct detail fetch. -/
theorem c6_witness :
    search envC6w " cd-34 " = .ok [{ code := "CD-34", title := "w" }] := by
  have h := (c6_search_dispatch envC6w " cd-34 ").1 dC6w (by decide) (by decide)
  exact h

/-! ### Claim C8 -/

/-- Claim C8: when either credential token is absent or empty, the DMM
adapter returns the no-result outcome `Ok none` and performs no network call
(second component `false`). -/
theorem c8_dmm_disabled (cfg : DmmConfig) (net : Except AvError (Option DmmItem))
    (code : String)
    (h : cfg.api_id = none ∨ cfg.api_id = some "" ∨
      cfg.affiliate_id = none ∨ cfg.affiliate_id = some "") :
    fetch_detail_from_dmm cfg net code = (.ok none, false) := by
  have hdis : dmm_enabled cfg = false := by
    rcases h with h | h | h | h
    · have h1 : env_api_id cfg = none := by rw [env_api_id, h]; rfl
      simp [dmm_enabled, h1]
    · have h1 : env_api_id cfg = none := by rw [env_api_id, h]; rfl
      simp [dmm_enabled, h1]
    · have h1 : env_affiliate_id cfg = none := by rw [env_affiliate_id, h]; rfl
      simp [dmm_enabled, h1]
    · have h1 : env_affiliate_id cfg = none := by rw [env_affiliate_id, h]; rfl
      simp [dmm_enabled, h1]
  simp [fetch_detail_from_dmm, hdis]

/-- Witness for C8: missing API id disables the adapter outright. -/
theorem c8_witness :
    fetch_detail_from_dmm { api_id := none, affiliate_id := some "tok" }
      (.ok none) "AB-12" = (.ok none, false) :=
  c8_dmm_disabled _ _ _ (Or.inl rfl)

/-! ### Claim C9 -/

/-- Claim C9: the JavDB magnet-info construction is the one-to-one image of
the magnet URI list — same length, URIs in the same order (the `url`
projection of the result is the input list), and every other metadata field
absent. -/
theorem c9_javdb_magnet_infos (magnets : List String) :
    (extract_magnet_infos_from_javdb magnets).length = magnets.length
    ∧ (extract_magnet_infos_from_javdb magnets).map MagnetInfo.url = magnets
    ∧ (extract_magnet_infos_from_javdb magnets).all
        (fun mi => mi.name.isNone && mi.size.isNone && mi.date.isNone &&
          mi.seeders.isNone && mi.leechers.isNone && mi.downloads.isNone &&
          mi.resolution.isNone && mi.codec.isNone &&
          mi.avg_bitrate_mbps.isNone) = true := by
  refine ⟨?_, ?_, ?_⟩
  · simp [extract_magnet_infos_from_javdb]
  · induction magnets with
    | nil => rfl
    | cons m t ih =>
      simp only [extract_magnet_infos_from_javdb, List.map_cons] at ih ⊢
      rw [ih]
  · induction magnets with
    | nil => rfl
    | cons m t ih =>
      simp only [extract_magnet_infos_from_javdb, List.map_cons, List.all_cons] at ih ⊢
      rw [ih]
      rfl

/-! ### Claim C10 -/

lemma top_push_reached (limit : Nat) : ∀ (cards : List Card) (items : List AvItem),
    items.length < limit →
    ((top_push limit items cards).2 = true → (top_push limit items cards).1.length = limit)
    ∧ ((top_push limit items cards).2 = false →
        (top_push limit items cards).1.length < limit) := by
  intro cards
  induction cards with
  | nil =>
    intro items h
    exact ⟨fun hc => by simp [top_push] at hc, fun _ => h⟩
  | cons card rest ih =>
    intro items h
    cases hc : card_to_item card with
    | none =>
      have he : top_push limit items (card :: rest) = top_push limit items rest := by
        simp only [top_push, hc]
      rw [he]
      exact ih items h
    | some item =>
      by_cases hl : limit ≤ (items ++ [item]).length
      · have he : top_push limit items (card :: rest) = (items ++ [item], true) := by
          simp only [top_push, hc, if_pos hl]
        rw [he]
        have hl2 : limit ≤ items.length + 1 := by
          simpa using hl
        refine ⟨fun _ => ?_, fun hfalse => by simp at hfalse⟩
        show (items ++ [item]).length = limit
        simp only [List.length_append, List.length_cons, List.length_nil]
        omega
      · have he : top_push limit items (card :: rest) =
            top_push limit (items ++ [item]) rest := by
          simp only [top_push, hc, if_neg hl]
        rw [he]
        apply ih
        have hl2 : ¬ limit ≤ items.length + 1 := by
          simpa using hl
        simp only [List.length_append, List.length_cons, List.length_nil]
        omega

lemma top_pages_spec (limit : Nat) : ∀ (pages : List (Except AvError (List Card)))
    (items res : List AvItem), items.length < limit →
    top_pages limit items pages = .ok res →
    res.length ≤ limit ∧
      (res.length = limit → ∀ extra, top_pages limit items (pages ++ extra) = .ok res) := by
  intro pages
  induction pages with
  | nil =>
    intro items res h hr
    simp only [top_pages] at hr
    obtain rfl : items = res := Except.ok.inj hr
    exact ⟨Nat.le_of_lt h, fun heq => absurd heq (by omega)⟩
  | cons pg rest ih =>
    intro items res h hr
    cases pg with
    | error e =>
      simp only [top_pages] at hr
      exact Except.noConfusion hr
    | ok cards =>
      simp only [top_pages] at hr
      obtain ⟨⟨items2, reached⟩, hp⟩ :
          ∃ r, top_push limit items cards = r := ⟨_, rfl⟩
      rw [hp] at hr
      have hpl := top_push_reached limit cards items h
      rw [hp] at hpl
      cases reached with
      | true =>
        rw [if_pos rfl] at hr
        have hres : items2 = res := Except.ok.inj hr
        subst hres
        have hlen : items2.length = limit := hpl.1 rfl
        refine ⟨le_of_eq hlen, fun _ extra => ?_⟩
        simp [top_pages, hp]
      | false =>
        rw [if_neg Bool.false_ne_true] at hr
        have h2 : items2.length < limit := hpl.2 rfl
        have hres := ih items2 res h2 hr
        refine ⟨hres.1, fun heq extra => ?_⟩
        simp only [List.cons_append, top_pages, hp]
        rw [if_neg Bool.false_ne_true]
        exact hres.2 heq extra

/-- Claim C10: for every limit of at least one, `top` returns at most `limit`
items, and once `limit` items have been gathered it stops: appending further
listing pages to the fetch sequence (which are then never visited) cannot
change the result. -/
theorem c10_top_limit (limit : Nat) (pages : List (Except AvError (List Card)))
    (items : List AvItem) (h1 : 1 ≤ limit) (h2 : top limit pages = .ok items) :
    items.length ≤ limit ∧
      (items.length = limit → ∀ extra, top limit (pages ++ extra) = .ok items) := by
  have h0 : ([] : List AvItem).length < limit := by
    simpa using h1
  exact top_pages_spec limit pages [] items h0 h2

/-- Listing card yielding the first collected item for the C10 witness. -/
def cardC10a : Card := { href := "/v/x1", title := "AB-12 one" }

/-- Second listing card of the same page, never reached at limit one. -/
def cardC10b : Card := { href := "/v/x2", title := "CD-34 two" }

/-- Witness for C10: with limit 1 the first card already fills the quota, and
even an appended page that would fail at the transport level is never visited. -/
theorem c10_witness :
    top 1 [.ok [cardC10a, cardC10b]] = .ok [{ code := "AB-12", title := "AB-12 one" }]
    ∧ top 1 ([.ok [cardC10a, cardC10b]] ++ [.error .transport]) =
        .ok [{ code := "AB-12", title := "AB-12 one" }] := by
  have h := c10_top_limit 1 [.ok [cardC10a, cardC10b]]
    [{ code := "AB-12", title := "AB-12 one" }] (by decide) (by decide)
  exact ⟨by decide, h.2 (by decide) [.error .transport]⟩
